import Mathlib

/-!
Verification development for the PowerManagement repository.

The definitions below are shallow embeddings of the Python source:

* scripts/smart_thermal_manager.py  (SmartThermalManager)
* src/frequency/universal_cpu_manager.py  (UniversalCPUManager)
* src/frequency/cpu_frequency_manager.py  (CPUFrequencyManager)
* src/hardware/hardware_detector.py  (HardwareDetector)
* src/config/power_config.py  (PowerConfig)

Python machine-independent integers are modelled as Int (or Nat where the
source only ever handles non-negative quantities); Python floor division
(the double-slash operator) on non-negative operands coincides with the
Lean division used here.  Subprocess and sysfs side effects are modelled
by recording what the code would attempt (the frequency it would write,
whether the kill path is invoked, which nice level is passed), and the
mode-setting call of the thermal manager is modelled as succeeding, since
the claims are about the control logic rather than about the environment.
-/

namespace PowerManagement

/-- PowerMode enum of scripts/smart_thermal_manager.py. -/
inductive PowerMode where
  | performance
  | balanced
  | powerSave
  | emergency
deriving DecidableEq, Repr

/-- The four thermal threshold attributes of SmartThermalManager
(comfort_temp, warning_temp, critical_temp, emergency_temp); they are plain
mutable instance attributes, so the tick function below is parameterised
over them. -/
structure Thresholds where
  comfort_temp : Int
  warning_temp : Int
  critical_temp : Int
  emergency_temp : Int
deriving DecidableEq, Repr

/-- The values assigned in SmartThermalManager.__init__ (lines 34-37). -/
def defaultThresholds : Thresholds :=
  { comfort_temp := 65, warning_temp := 70, critical_temp := 80, emergency_temp := 83 }

/-- The mutable loop state of SmartThermalManager: current_mode and
escalation_count. -/
structure ThermalState where
  current_mode : PowerMode
  escalation_count : Int
deriving DecidableEq, Repr

/-- Result of one tick of SmartThermalManager.adaptive_thermal_response:
the updated state together with the externally visible actions of that tick
(the nice level passed to throttle_ai_processes, if it is called, and
whether emergency_kill_heavy_processes is invoked). -/
structure TickResult where
  state : ThermalState
  throttle_nice : Option Int
  kill_invoked : Bool
deriving DecidableEq, Repr

/-- Shallow embedding of SmartThermalManager.adaptive_thermal_response
(smart_thermal_manager.py lines 171-217).  The set_power_profile call is
modelled as succeeding (on success it assigns current_mode and returns
True); the cpu_usage argument of the Python method is unused by the method
body and therefore omitted. -/
def adaptive_thermal_response (th : Thresholds) (s : ThermalState) (temp : Int) :
    TickResult :=
  if temp < th.comfort_temp then
    -- system cool: demote only if currently in emergency mode
    if s.current_mode = PowerMode.emergency then
      { state := { current_mode := PowerMode.balanced,
                   escalation_count := max 0 (s.escalation_count - 1) },
        throttle_nice := none, kill_invoked := false }
    else
      { state := s, throttle_nice := none, kill_invoked := false }
  else if temp < th.warning_temp then
    -- slight warming: preventive throttling only from performance mode
    if s.current_mode = PowerMode.performance then
      { state := { current_mode := PowerMode.balanced,
                   escalation_count := s.escalation_count },
        throttle_nice := some 5, kill_invoked := false }
    else
      { state := s, throttle_nice := none, kill_invoked := false }
  else if temp < th.critical_temp then
    -- warning zone: unconditional escalation_count += 1
    let c := s.escalation_count + 1
    if c ≤ 3 then
      { state := { current_mode := PowerMode.powerSave, escalation_count := c },
        throttle_nice := some (10 + c * 2), kill_invoked := false }
    else
      { state := { current_mode := PowerMode.emergency, escalation_count := c },
        throttle_nice := some 19, kill_invoked := false }
  else if th.emergency_temp ≤ temp then
    -- critical: immediate emergency stop, escalation_count = 10
    { state := { current_mode := PowerMode.emergency, escalation_count := 10 },
      throttle_nice := none, kill_invoked := true }
  else
    -- high risk zone between critical_temp and emergency_temp
    { state := { current_mode := PowerMode.emergency,
                 escalation_count := s.escalation_count },
      throttle_nice := some 19, kill_invoked := false }

/-- Iterated ticks: states reached by running adaptive_thermal_response on a
list of consecutive temperature readings. -/
def thermal_ticks (th : Thresholds) (s : ThermalState) (temps : List Int) :
    ThermalState :=
  temps.foldl (fun st t => (adaptive_thermal_response th st t).state) s

/-- Shallow embedding of SmartThermalManager.get_cpu_temperature (lines
51-71): the two reading methods (sensors output parsing, thermal_zone file)
are modelled by their optional results; when both fail the method returns
0. -/
def get_cpu_temperature (sensors_method thermal_zone_method : Option Int) : Int :=
  match sensors_method with
  | some t => t
  | none =>
    match thermal_zone_method with
    | some t => t
    | none => 0

/-- CPUVendor enum of src/hardware/hardware_detector.py. -/
inductive CPUVendor where
  | intel
  | amd
  | unknown
deriving DecidableEq, Repr

/-- CPUGeneration enum of src/hardware/hardware_detector.py. -/
inductive CPUGeneration where
  | core2
  | nehalem
  | sandy_bridge
  | ivy_bridge
  | haswell
  | broadwell
  | skylake_plus
  | k8
  | k10
  | bulldozer
  | zen
  | unknown
deriving DecidableEq, Repr

/-- HardwareDetector._get_thermal_max_safe (hardware_detector.py lines
229-249): the vendor/generation lookup table for the maximum safe
temperature. -/
def get_thermal_max_safe (vendor : CPUVendor) (gen : CPUGeneration) : Nat :=
  match vendor with
  | CPUVendor.intel =>
    if gen = CPUGeneration.core2 then 85
    else if gen = CPUGeneration.nehalem ∨ gen = CPUGeneration.sandy_bridge then 95
    else 100
  | CPUVendor.amd =>
    if gen = CPUGeneration.k8 ∨ gen = CPUGeneration.k10 then 70
    else if gen = CPUGeneration.bulldozer then 75
    else 95
  | CPUVendor.unknown => 85

/-- The fallback branch of HardwareDetector._detect_frequency_range
(hardware_detector.py lines 194-207), taken when the cpufreq sysfs bounds
are absent and a current frequency was parsed from /proc/cpuinfo; it
returns the (min_freq, max_freq) pair computed there:
max_freq = max(current, 2000) and min_freq = max_freq // 3. -/
def detect_frequency_range_fallback (current : Int) : Int × Int :=
  let mx := max current 2000
  (mx / 3, mx)

/-- The fields of the CPUInfo dataclass (hardware_detector.py lines 49-60)
that the frequency-control code reads; the remaining fields (model name,
core count, current frequency, thermal ceiling) do not affect the claims
below. -/
structure CPUInfo where
  generation : CPUGeneration
  min_freq_mhz : Int
  max_freq_mhz : Int
  supports_msr : Bool
  supports_cpufreq : Bool
deriving DecidableEq, Repr

/-- The strings returned by UniversalCPUManager._select_control_method,
as a closed enumeration. -/
inductive ControlMethod where
  | ci_mode
  | cpufreq_intel_pstate
  | cpufreq
  | msr
  | cpupower
  | no_method
deriving DecidableEq, Repr

/-- Shallow embedding of UniversalCPUManager._select_control_method
(universal_cpu_manager.py lines 96-120).  The availability of the cpupower
utility (the which-lookup) is passed as a Boolean. -/
def select_control_method (ci : Bool) (info : CPUInfo)
    (cpupower_available : Bool) : ControlMethod :=
  if ci then ControlMethod.ci_mode
  else if info.supports_cpufreq then
    if info.generation = CPUGeneration.skylake_plus then
      ControlMethod.cpufreq_intel_pstate
    else ControlMethod.cpufreq
  else if info.supports_msr then ControlMethod.msr
  else if cpupower_available then ControlMethod.cpupower
  else ControlMethod.no_method

/-- CORE2_QUAD_MULTIPLIERS of UniversalCPUManager (universal_cpu_manager.py
lines 43-56): frequency (MHz) to MSR register value. -/
def CORE2_QUAD_MULTIPLIERS : List (Int × Int) :=
  [(2833, 0x0615), (2666, 0x0514), (2500, 0x0513), (2333, 0x0512),
   (2166, 0x0411), (2000, 0x0610), (1833, 0x050F), (1666, 0x050E),
   (1500, 0x050D), (1333, 0x040C), (1200, 0x040B)]

/-- The ascending key list sorted(self.CORE2_QUAD_MULTIPLIERS.keys()) used
by set_frequency_msr. -/
def core2_sorted_freqs : List Int :=
  [1200, 1333, 1500, 1666, 1833, 2000, 2166, 2333, 2500, 2666, 2833]

/-- Python min(available_freqs, key=lambda x: abs(x - target)) over the
ascending key list: the first element attaining the minimal distance. -/
def closest_core2_freq (target : Int) : Int :=
  core2_sorted_freqs.foldl
    (fun best f => if |f - target| < |best - target| then f else best) 1200

/-- Shallow embedding of UniversalCPUManager.set_frequency_msr
(universal_cpu_manager.py lines 190-225), modelled by the MSR frequency it
attempts to write: none when the method returns False before issuing any
wrmsr (a generation without a multiplier table, or a target farther than
200 MHz from every table entry), and some f when it would write the
register value of table frequency f. -/
def set_frequency_msr_attempt (gen : CPUGeneration) (target : Int) : Option Int :=
  if gen ≠ CPUGeneration.core2 then none
  else
    let closest := closest_core2_freq target
    if 200 < |closest - target| then none
    else some closest

/-- The clamping step of UniversalCPUManager.set_frequency
(universal_cpu_manager.py lines 252-253): the target actually dispatched to
the selected control method. -/
def universal_clamped_target (info : CPUInfo) (x : Int) : Int :=
  max info.min_freq_mhz (min x info.max_freq_mhz)

/-- Shallow embedding of UniversalCPUManager.set_frequency (lines 245-264),
modelled by the frequency the selected method attempts to apply: in CI mode
nothing is attempted; otherwise the clamped target is dispatched (the
cpufreq and cpupower paths attempt exactly the clamped target, the MSR path
attempts the nearest table entry or nothing). -/
def universal_set_frequency_attempt (ci : Bool) (info : CPUInfo)
    (method : ControlMethod) (x : Int) : Option Int :=
  if ci then none
  else
    let t := universal_clamped_target info x
    match method with
    | ControlMethod.ci_mode => none
    | ControlMethod.cpufreq_intel_pstate => some t
    | ControlMethod.cpufreq => some t
    | ControlMethod.msr => set_frequency_msr_attempt info.generation t
    | ControlMethod.cpupower => some t
    | ControlMethod.no_method => none

/-- FrequencyMethod enum of src/frequency/cpu_frequency_manager.py. -/
inductive FrequencyMethod where
  | cpufreq
  | msr
  | cpupower
  | grub_fallback
deriving DecidableEq, Repr

/-- Key list of the q9550_multipliers table of CPUFrequencyManager
(cpu_frequency_manager.py lines 49-58). -/
def q9550_freqs : List Int := [2833, 2500, 2166, 2000, 1833, 1666, 1500, 1333]

/-- The hardcoded Q9550 frequency bounds reported by
CPUFrequencyManager.get_cpu_state (cpu_frequency_manager.py lines 233-234). -/
def q9550_min_freq : Int := 1333

/-- The hardcoded Q9550 maximum frequency of get_cpu_state. -/
def q9550_max_freq : Int := 2833

/-- Frequency a single method of CPUFrequencyManager would attempt to
apply for a given target: set_frequency_cpufreq writes target*1000 kHz to
scaling_setspeed (so it attempts the raw target), set_frequency_msr writes
only when the target is an exact key of q9550_multipliers,
set_frequency_cpupower invokes cpupower with the raw target, and the
GRUB_FALLBACK method is skipped by the dispatch loop. -/
def cfm_method_attempt (m : FrequencyMethod) (target : Int) : Option Int :=
  match m with
  | FrequencyMethod.cpufreq => some target
  | FrequencyMethod.msr => if target ∈ q9550_freqs then some target else none
  | FrequencyMethod.cpupower => some target
  | FrequencyMethod.grub_fallback => none

/-- Shallow embedding of CPUFrequencyManager.set_frequency
(cpu_frequency_manager.py lines 195-215), modelled by the frequency of the
first write attempt made while iterating available_methods: the method
body performs no clamping, each method receives the raw target. -/
def cfm_first_attempt (methods : List FrequencyMethod) (target : Int) :
    Option Int :=
  match methods with
  | [] => none
  | m :: rest =>
    match cfm_method_attempt m target with
    | some f => some f
    | none => cfm_first_attempt rest target

/-- ThermalConfig dataclass of src/config/power_config.py (lines 38-44),
holding the derived thresholds. -/
structure ThermalConfig where
  comfort_temp : Nat
  warning_temp : Nat
  critical_temp : Nat
  emergency_temp : Nat
deriving DecidableEq, Repr

/-- Shallow embedding of PowerConfig.set_thermal_config (power_config.py
lines 163-175): thresholds are int(max_safe_temp * p) for p in 0.65, 0.75,
0.85, 0.95.  For every non-negative integer max_safe_temp small enough to
be a temperature, the double-precision product rounds to the exact value,
so the truncation equals the integer floor max_safe_temp * k / 100. -/
def set_thermal_config (max_safe_temp : Nat) : ThermalConfig :=
  { comfort_temp := max_safe_temp * 65 / 100,
    warning_temp := max_safe_temp * 75 / 100,
    critical_temp := max_safe_temp * 85 / 100,
    emergency_temp := max_safe_temp * 95 / 100 }

/-- FrequencyConfig dataclass of src/config/power_config.py (lines 47-55). -/
structure FrequencyConfig where
  min_freq_mhz : Nat
  max_freq_mhz : Nat
  performance_freq : Nat
  balanced_freq : Nat
  powersave_freq : Nat
  emergency_freq : Nat
deriving DecidableEq, Repr

/-- Number of low-order bits that must be rounded away so that num (an
exact product scaled by 2^53) fits a 53-bit binary64 significand: num
occupies Nat.log 2 num + 1 bits. -/
def ulpShift (num : Nat) : Nat := Nat.log 2 num + 1 - 53

/-- IEEE-754 rounding of the value q + r / p (with r < p) to an integer:
round to nearest, ties to the even neighbour. -/
def roundHalfEven (p q r : Nat) : Nat :=
  if 2 * r < p then q
  else if p < 2 * r then q + 1
  else if q % 2 = 0 then q else q + 1

/-- Rounded 53-bit significand of num (a scaled exact product): num is cut
at the ulpShift num low bits and rounded to nearest, ties to even. -/
def roundSig (num : Nat) : Nat :=
  roundHalfEven (2 ^ ulpShift num) (num / 2 ^ ulpShift num) (num % 2 ^ ulpShift num)

/-- Shallow embedding of the Python expression int(x * 0.7) for a
non-negative integer x below 2^53, exactly as CPython evaluates it: x
converts to binary64 without error, the literal 0.7 denotes the binary64
value 6305039478318694 / 2^53 (slightly below 7 / 10), the product is
rounded to nearest with ties to even, and int truncates the non-negative
result.  The exact product scaled by 2^53 is x * 6305039478318694; rounding
it to a 53-bit significand and dividing by 2^53 gives the truncation. -/
def int_mul_07 (x : Nat) : Nat :=
  roundSig (x * 6305039478318694) * 2 ^ ulpShift (x * 6305039478318694) / 2 ^ 53

/-- Shallow embedding of PowerConfig.set_frequency_config (power_config.py
lines 143-161): freq_range = max - min, balanced = min + int(range * 0.7),
powersave = min + int(range * 0.5).  The 0.7 product is evaluated in
double precision via int_mul_07 (it can fall one below the exact
truncation, e.g. int(90 * 0.7) = 62); the 0.5 product is exact because 0.5
and half of any integer below 2^53 are exactly representable, so
int(range * 0.5) equals range * 5 / 10. -/
def set_frequency_config (min_freq max_freq : Nat) : FrequencyConfig :=
  let freq_range := max_freq - min_freq
  { min_freq_mhz := min_freq,
    max_freq_mhz := max_freq,
    performance_freq := max_freq,
    balanced_freq := min_freq + int_mul_07 freq_range,
    powersave_freq := min_freq + freq_range * 5 / 10,
    emergency_freq := min_freq }

/-! Helper lemmas for the double-precision rounding model.  The unfolding
lemmas are stated at variable arguments on purpose: kernel definitional
unfolding of a closed ulpShift application would force evaluation of
Nat.log, which does not reduce. -/

lemma ulpShift_eq (num : Nat) : ulpShift num = Nat.log 2 num + 1 - 53 := rfl

lemma roundSig_eq (num : Nat) :
    roundSig num = roundHalfEven (2 ^ ulpShift num) (num / 2 ^ ulpShift num)
      (num % 2 ^ ulpShift num) := rfl

lemma int_mul_07_eq (x : Nat) :
    int_mul_07 x =
      roundSig (x * 6305039478318694) * 2 ^ ulpShift (x * 6305039478318694) / 2 ^ 53 :=
  rfl

lemma set_frequency_config_performance (mn mx : Nat) :
    (set_frequency_config mn mx).performance_freq = mx := rfl

lemma set_frequency_config_balanced (mn mx : Nat) :
    (set_frequency_config mn mx).balanced_freq = mn + int_mul_07 (mx - mn) := rfl

lemma set_frequency_config_powersave (mn mx : Nat) :
    (set_frequency_config mn mx).powersave_freq = mn + (mx - mn) * 5 / 10 := rfl

lemma set_frequency_config_emergency (mn mx : Nat) :
    (set_frequency_config mn mx).emergency_freq = mn := rfl

/-- Rounding to a multiple of p (nearest, ties to even) moves the value by
at most half of p, stated multiplied by two to stay in Nat. -/
lemma roundHalfEven_mul_bounds (p q r : Nat) (hr : r < p) :
    2 * (q * p + r) ≤ 2 * (roundHalfEven p q r * p) + p ∧
    2 * (roundHalfEven p q r * p) ≤ 2 * (q * p + r) + p := by
  unfold roundHalfEven
  split_ifs with h1 h2 h3
  all_goals
    obtain ⟨X, hX⟩ : ∃ X, q * p = X := ⟨_, rfl⟩
  all_goals try rw [add_mul, one_mul]
  all_goals rw [hX]
  all_goals omega

/-- The rounded significand scaled back differs from num by at most half
an ulp. -/
lemma roundSig_mul_bounds (num : Nat) :
    2 * num ≤ 2 * (roundSig num * 2 ^ ulpShift num) + 2 ^ ulpShift num ∧
    2 * (roundSig num * 2 ^ ulpShift num) ≤ 2 * num + 2 ^ ulpShift num := by
  have h := roundHalfEven_mul_bounds (2 ^ ulpShift num) (num / 2 ^ ulpShift num)
    (num % 2 ^ ulpShift num) (Nat.mod_lt _ (pow_pos (by norm_num) _))
  rw [Nat.div_add_mod'] at h
  rw [roundSig_eq]
  exact h

/-- The ulp of num is bounded by roughly num / 2^52, expressed with the
integer division num / 2^53. -/
lemma ulpShift_pow_le (num : Nat) : 2 ^ ulpShift num ≤ 2 * (num / 2 ^ 53) + 1 := by
  by_cases h : Nat.log 2 num + 1 ≤ 53
  · have h0 : ulpShift num = 0 := by rw [ulpShift_eq]; omega
    rw [h0]
    simp
  · have hnum : num ≠ 0 := by
      intro h0
      rw [h0, Nat.log_zero_right] at h
      omega
    have hle : 2 ^ Nat.log 2 num ≤ num := Nat.pow_log_le_self 2 hnum
    have hcarry : 2 ^ (Nat.log 2 num - 53) * 2 ^ 53 = 2 ^ Nat.log 2 num := by
      rw [← pow_add]
      congr 1
      omega
    have hdiv : 2 ^ (Nat.log 2 num - 53) ≤ num / 2 ^ 53 := by
      rw [Nat.le_div_iff_mul_le (by positivity)]
      omega
    have hsplit : 2 ^ ulpShift num = 2 ^ (Nat.log 2 num - 53) * 2 := by
      rw [ulpShift_eq, show Nat.log 2 num + 1 - 53 = (Nat.log 2 num - 53) + 1 by omega,
        pow_succ]
    omega

/-- Sandwich for int_mul_07 x: it is T / 2^53 for a T within half an ulp of
the exact product x * 6305039478318694, with the half-ulp itself bounded
through the division by 2^53.  Everything downstream is linear arithmetic
over these facts. -/
lemma int_mul_07_key (x : Nat) :
    ∃ T, int_mul_07 x = T / 2 ^ 53 ∧
      2 * (x * 6305039478318694) ≤ 2 * T + 2 * (x * 6305039478318694 / 2 ^ 53) + 1 ∧
      2 * T ≤ 2 * (x * 6305039478318694) + 2 * (x * 6305039478318694 / 2 ^ 53) + 1 := by
  refine ⟨roundSig (x * 6305039478318694) * 2 ^ ulpShift (x * 6305039478318694),
    int_mul_07_eq x, ?_, ?_⟩
  all_goals
    have hb := roundSig_mul_bounds (x * 6305039478318694)
    have hu := ulpShift_pow_le (x * 6305039478318694)
    obtain ⟨T, hT⟩ : ∃ T,
        roundSig (x * 6305039478318694) * 2 ^ ulpShift (x * 6305039478318694) = T :=
      ⟨_, rfl⟩
    obtain ⟨C, hC⟩ : ∃ C, 2 ^ ulpShift (x * 6305039478318694) = C := ⟨_, rfl⟩
    rw [hT, hC] at hb
    rw [hC] at hu
    rw [hT]
    omega

/-- Concrete ulp count for the product 90 * 6305039478318694, whose bit
length is 59. -/
lemma ulpShift_of_90 : ulpShift 567453553048682460 = 6 := by
  have hlog : Nat.log 2 567453553048682460 = 58 :=
    Nat.log_eq_of_pow_le_of_lt_pow (by norm_num) (by norm_num)
  rw [ulpShift_eq, hlog]

/-- Concrete evaluation of the double-precision product: int(90 * 0.7)
is 62, one below the exact truncation 63, because 90 * 0.7 computes to
62.99999999999999 in binary64. -/
lemma int_mul_07_90 : int_mul_07 90 = 62 := by
  rw [int_mul_07_eq, show (90 : Nat) * 6305039478318694 = 567453553048682460 by norm_num,
    roundSig_eq, ulpShift_of_90]
  norm_num [roundHalfEven]

/-! Claim theorems. -/

/-- C1 counterexample: at temperature 0, strictly below the default comfort
threshold 65, a tick from state (Emergency, 5) leaves the escalation
counter at 4, not 0 — the comfort branch decrements the counter instead of
resetting it, refuting the claim that the counter is exactly 0 after one
below-comfort tick. -/
theorem comfort_tick_counter_not_reset_cex :
    (0 : Int) < defaultThresholds.comfort_temp ∧
    (adaptive_thermal_response defaultThresholds
      ⟨PowerMode.emergency, 5⟩ 0).state.escalation_count = 4 ∧
    (4 : Int) ≠ 0 := by
  decide

/-- C1 amended: for every temperature strictly below the comfort threshold,
one tick of adaptive_thermal_response leaves the PowerMode at something
other than Emergency, and leaves the escalation counter decremented by one
(floored at 0) when the mode was Emergency, unchanged otherwise — it is
never reset to 0. -/
theorem comfort_tick_no_emergency_counter_decrement
    (th : Thresholds) (s : ThermalState) (temp : Int)
    (h : temp < th.comfort_temp) :
    (adaptive_thermal_response th s temp).state.current_mode ≠ PowerMode.emergency ∧
    (adaptive_thermal_response th s temp).state.escalation_count =
      (if s.current_mode = PowerMode.emergency then
        max 0 (s.escalation_count - 1) else s.escalation_count) := by
  unfold adaptive_thermal_response
  rw [if_pos h]
  by_cases hm : s.current_mode = PowerMode.emergency
  · rw [if_pos hm, if_pos hm]
    refine ⟨?_, rfl⟩
    show PowerMode.balanced ≠ PowerMode.emergency
    decide
  · rw [if_neg hm, if_neg hm]
    exact ⟨hm, rfl⟩

/-- C1 witness: the amended theorem evaluated at state (Emergency, 5) and
temperature 0 with the default thresholds. -/
theorem comfort_tick_no_emergency_counter_decrement_witness :
    (adaptive_thermal_response defaultThresholds
      ⟨PowerMode.emergency, 5⟩ 0).state.current_mode ≠ PowerMode.emergency ∧
    (adaptive_thermal_response defaultThresholds
      ⟨PowerMode.emergency, 5⟩ 0).state.escalation_count = 4 := by
  have h := comfort_tick_no_emergency_counter_decrement defaultThresholds
    ⟨PowerMode.emergency, 5⟩ 0 (by decide)
  exact ⟨h.1, by rw [h.2]; decide⟩

/-- C2 counterexample: with the default thresholds, a tick at 50 lies in
the comfort band (a band cooler than the warning-to-critical band), and the
immediately following tick at 75 (inside the warning-to-critical band)
still increments the escalation counter from 0 to 1 — refuting the claim
that the counter is never incremented when the previous tick was in a
cooler band. -/
theorem critical_band_increment_after_cool_tick_cex :
    (50 : Int) < defaultThresholds.comfort_temp ∧
    defaultThresholds.warning_temp ≤ 75 ∧
    (75 : Int) < defaultThresholds.critical_temp ∧
    thermal_ticks defaultThresholds ⟨PowerMode.balanced, 0⟩ [50] =
      ⟨PowerMode.balanced, 0⟩ ∧
    thermal_ticks defaultThresholds ⟨PowerMode.balanced, 0⟩ [50, 75] =
      ⟨PowerMode.powerSave, 1⟩ := by
  decide

/-- C2 amended: on every tick whose temperature lies in the
warning-to-critical band, the escalation counter is incremented
unconditionally — the code keeps no record of the previous tick's band and
increments regardless of it. -/
theorem critical_band_increments_unconditionally
    (th : Thresholds) (s : ThermalState) (temp : Int)
    (h1 : th.comfort_temp ≤ th.warning_temp)
    (h2 : th.warning_temp ≤ temp) (h3 : temp < th.critical_temp) :
    (adaptive_thermal_response th s temp).state.escalation_count =
      s.escalation_count + 1 := by
  unfold adaptive_thermal_response
  rw [if_neg (by omega), if_neg (by omega), if_pos h3]
  by_cases hc : s.escalation_count + 1 ≤ 3
  · simp only [hc, if_pos]
  · simp only [hc, if_neg, if_false]

/-- C2 witness: the amended theorem evaluated with the default thresholds
at state (Balanced, 0) and temperature 75. -/
theorem critical_band_increments_unconditionally_witness :
    (adaptive_thermal_response defaultThresholds
      ⟨PowerMode.balanced, 0⟩ 75).state.escalation_count = 0 + 1 :=
  critical_band_increments_unconditionally defaultThresholds
    ⟨PowerMode.balanced, 0⟩ 75 (by decide) (by decide) (by decide)

/-- C3 counterexample: with thresholds (60, 75, 85, 95) and the counter
starting at 0, three consecutive ticks at 80 end in mode PowerSaver with
counter exactly 3 — not Emergency, and the counter has not exceeded 3. -/
theorem three_ticks_at_80_not_emergency_cex :
    thermal_ticks ⟨60, 75, 85, 95⟩ ⟨PowerMode.balanced, 0⟩ [80, 80, 80] =
      ⟨PowerMode.powerSave, 3⟩ ∧
    PowerMode.powerSave ≠ PowerMode.emergency ∧
    ¬ (3 : Int) > 3 := by
  decide

/-- C3 amended: with thresholds (60, 75, 85, 95) and the counter starting
at 0, it takes four consecutive ticks at temperature 80 to reach PowerMode
Emergency — the counter first exceeds 3 on the fourth tick, whatever the
starting mode. -/
theorem four_ticks_at_80_reach_emergency (m : PowerMode) :
    thermal_ticks ⟨60, 75, 85, 95⟩ ⟨m, 0⟩ [80, 80, 80, 80] =
      ⟨PowerMode.emergency, 4⟩ ∧ (3 : Int) < 4 := by
  cases m <;> decide

/-- C4 counterexample: at temperature 96, at or above the default
emergency threshold 83, the tick sets Emergency, invokes the kill path and
sets the counter to the sentinel 10, but performs no throttle/affinity
call at all (throttle_nice is none) — refuting the claimed application of
maximum throttling/affinity restriction on that tick. -/
theorem emergency_tick_no_throttle_cex :
    defaultThresholds.emergency_temp ≤ 96 ∧
    adaptive_thermal_response defaultThresholds ⟨PowerMode.balanced, 0⟩ 96 =
      ⟨⟨PowerMode.emergency, 10⟩, none, true⟩ := by
  decide

/-- C4 amended: for every temperature at or above the emergency threshold
(thresholds being in non-decreasing order), a single tick immediately sets
PowerMode Emergency, invokes the kill-heavy-workloads path on that same
tick, and sets the escalation counter to the sentinel 10; no renice or
affinity throttling call is made on that tick. -/
theorem emergency_tick_kills_and_saturates
    (th : Thresholds) (s : ThermalState) (temp : Int)
    (h1 : th.comfort_temp ≤ th.warning_temp)
    (h2 : th.warning_temp ≤ th.critical_temp)
    (h3 : th.critical_temp ≤ th.emergency_temp)
    (h4 : th.emergency_temp ≤ temp) :
    adaptive_thermal_response th s temp =
      ⟨⟨PowerMode.emergency, 10⟩, none, true⟩ := by
  unfold adaptive_thermal_response
  rw [if_neg (by omega), if_neg (by omega), if_neg (by omega), if_pos h4]

/-- C4 witness: the amended theorem evaluated with the default thresholds
at state (Balanced, 0) and temperature 96. -/
theorem emergency_tick_kills_and_saturates_witness :
    adaptive_thermal_response defaultThresholds ⟨PowerMode.balanced, 0⟩ 96 =
      ⟨⟨PowerMode.emergency, 10⟩, none, true⟩ :=
  emergency_tick_kills_and_saturates defaultThresholds ⟨PowerMode.balanced, 0⟩
    96 (by decide) (by decide) (by decide) (by decide)

/-- C5 counterexample: CPUFrequencyManager.set_frequency performs no
clamping — with the cpufreq method available, an input of 5000 MHz makes
the first actuation attempt try exactly 5000 MHz, far outside the Q9550
1333-2833 MHz range the same class reports. -/
theorem cfm_no_clamping_cex :
    cfm_first_attempt [FrequencyMethod.cpufreq, FrequencyMethod.grub_fallback]
      5000 = some 5000 ∧
    ¬ (q9550_min_freq ≤ 5000 ∧ (5000 : Int) ≤ q9550_max_freq) := by
  decide

/-- C5 amended: UniversalCPUManager.set_frequency clamps its target into
the detected [min_freq_mhz, max_freq_mhz] range before any actuation
method is tried, so for every integer input the dispatched target lies in
that range (and the cpufreq path attempts exactly the clamped target);
CPUFrequencyManager.set_frequency, by contrast, dispatches the raw
unclamped input. -/
theorem universal_set_frequency_clamps (info : CPUInfo) (x : Int)
    (h : info.min_freq_mhz ≤ info.max_freq_mhz) :
    info.min_freq_mhz ≤ universal_clamped_target info x ∧
    universal_clamped_target info x ≤ info.max_freq_mhz ∧
    universal_set_frequency_attempt false info ControlMethod.cpufreq x =
      some (universal_clamped_target info x) := by
  refine ⟨?_, ?_, rfl⟩ <;>
    simp only [universal_clamped_target] <;> omega

/-- C5 witness: the amended theorem evaluated for an input of 5000 MHz
against a profile with range 800-3000 MHz; the dispatched target is the
clamped 3000. -/
theorem universal_set_frequency_clamps_witness :
    (⟨CPUGeneration.unknown, 800, 3000, false, true⟩ : CPUInfo).min_freq_mhz ≤
      universal_clamped_target ⟨CPUGeneration.unknown, 800, 3000, false, true⟩ 5000 ∧
    universal_clamped_target ⟨CPUGeneration.unknown, 800, 3000, false, true⟩ 5000 ≤
      (⟨CPUGeneration.unknown, 800, 3000, false, true⟩ : CPUInfo).max_freq_mhz ∧
    universal_set_frequency_attempt false
      ⟨CPUGeneration.unknown, 800, 3000, false, true⟩ ControlMethod.cpufreq 5000 =
      some (universal_clamped_target
        ⟨CPUGeneration.unknown, 800, 3000, false, true⟩ 5000) :=
  universal_set_frequency_clamps ⟨CPUGeneration.unknown, 800, 3000, false, true⟩
    5000 (by decide)

/-- C6 counterexample: _select_control_method ignores the generation when
choosing MSR — a profile with Unknown generation, no cpufreq support and
MSR support is assigned the MSR control method. -/
theorem msr_selected_for_unknown_generation_cex :
    select_control_method false
      ⟨CPUGeneration.unknown, 800, 3000, true, false⟩ false =
      ControlMethod.msr ∧
    (⟨CPUGeneration.unknown, 800, 3000, true, false⟩ : CPUInfo).generation =
      CPUGeneration.unknown := by
  decide

/-- C6 amended: the MSR control method can be selected for a profile of
any generation (selection looks only at the cpufreq and MSR support
flags), but an MSR-based set_frequency attempt for every generation other
than Core2 — the only one with a multiplier table — reports failure
without attempting any register write. -/
theorem msr_attempt_fails_without_table (gen : CPUGeneration) (target : Int)
    (h : gen ≠ CPUGeneration.core2) :
    set_frequency_msr_attempt gen target = none := by
  simp [set_frequency_msr_attempt, h]

/-- C6 witness: the amended theorem evaluated at the Unknown generation
and target 2000 MHz. -/
theorem msr_attempt_fails_without_table_witness :
    set_frequency_msr_attempt CPUGeneration.unknown 2000 = none :=
  msr_attempt_fails_without_table CPUGeneration.unknown 2000 (by decide)

/-- C7 counterexample: for a reported current frequency of 900 MHz, the
fallback estimates the range as (666, 2000) — the floor is
max(current, 2000) / 3 = 666, not current / 3 = 300 as claimed. -/
theorem frequency_fallback_floor_cex :
    detect_frequency_range_fallback 900 = (666, 2000) ∧
    (900 : Int) / 3 = 300 ∧
    (666 : Int) ≠ 300 := by
  decide

/-- C7 amended: for every reported current frequency, the fallback range
is ceiling = max(current, 2000) and floor = ceiling / 3 (integer
division); the claimed floor = current / 3 holds exactly when the current
frequency is at least 2000. -/
theorem frequency_fallback_formula (current : Int) :
    (detect_frequency_range_fallback current).2 = max current 2000 ∧
    (detect_frequency_range_fallback current).1 = max current 2000 / 3 ∧
    (2000 ≤ current →
      (detect_frequency_range_fallback current).1 = current / 3) := by
  refine ⟨rfl, rfl, fun h => ?_⟩
  simp [detect_frequency_range_fallback, max_eq_left h]

/-- C7 witness: the amended theorem evaluated at a current frequency of
3000 MHz, where the floor is 3000 / 3. -/
theorem frequency_fallback_formula_witness :
    (detect_frequency_range_fallback 3000).1 = 3000 / 3 :=
  (frequency_fallback_formula 3000).2.2 (by decide)

/-- C8: for every detected thermal-max-safe value — the range of the
vendor/generation lookup _get_thermal_max_safe — the value is positive,
set_thermal_config derives the four thresholds as the integer-truncated
65, 75, 85 and 95 percent of it, and the resulting thresholds are strictly
monotonically increasing (comfort < warning < critical < emergency). -/
theorem detected_thermal_thresholds_strictly_increasing
    (v : CPUVendor) (g : CPUGeneration) :
    0 < get_thermal_max_safe v g ∧
    (set_thermal_config (get_thermal_max_safe v g)).comfort_temp =
      get_thermal_max_safe v g * 65 / 100 ∧
    (set_thermal_config (get_thermal_max_safe v g)).warning_temp =
      get_thermal_max_safe v g * 75 / 100 ∧
    (set_thermal_config (get_thermal_max_safe v g)).critical_temp =
      get_thermal_max_safe v g * 85 / 100 ∧
    (set_thermal_config (get_thermal_max_safe v g)).emergency_temp =
      get_thermal_max_safe v g * 95 / 100 ∧
    (set_thermal_config (get_thermal_max_safe v g)).comfort_temp <
      (set_thermal_config (get_thermal_max_safe v g)).warning_temp ∧
    (set_thermal_config (get_thermal_max_safe v g)).warning_temp <
      (set_thermal_config (get_thermal_max_safe v g)).critical_temp ∧
    (set_thermal_config (get_thermal_max_safe v g)).critical_temp <
      (set_thermal_config (get_thermal_max_safe v g)).emergency_temp := by
  cases v <;> cases g <;> decide

/-- C9 counterexample: at the range 1200-1290 (freq_range 90), the balanced
frequency is 1200 + int(90 * 0.7) = 1262, while the claimed formula
min + trunc(0.7 (max - min)) gives 1263 — in binary64, 90 * 0.7 is
62.99999999999999 and int truncates it to 62. -/
theorem frequency_config_balanced_cex :
    (set_frequency_config 1200 1290).balanced_freq = 1262 ∧
    1200 + (1290 - 1200) * 7 / 10 = 1263 ∧
    (1262 : Nat) ≠ 1263 := by
  refine ⟨?_, by norm_num, by norm_num⟩
  rw [set_frequency_config_balanced, show (1290 : Nat) - 1200 = 90 by norm_num,
    int_mul_07_90]

/-- C9 amended: for every frequency range with min ≤ max (and range at most
10^15), the FrequencyConfig computed by set_frequency_config satisfies
performance = max exactly, performance ≥ balanced ≥ powersave ≥
emergency ≥ min, with powersave = min + trunc(0.5 (max - min)) and
emergency = min exactly; balanced is min + int(0.7 (max - min)) evaluated
in double precision, which is min + trunc(0.7 (max - min)) or exactly one
below it. -/
theorem frequency_config_ordering (mn mx : Nat) (h : mn ≤ mx)
    (hr : mx - mn ≤ 1000000000000000) :
    (set_frequency_config mn mx).performance_freq = mx ∧
    (set_frequency_config mn mx).balanced_freq ≤
      (set_frequency_config mn mx).performance_freq ∧
    (set_frequency_config mn mx).powersave_freq ≤
      (set_frequency_config mn mx).balanced_freq ∧
    (set_frequency_config mn mx).emergency_freq ≤
      (set_frequency_config mn mx).powersave_freq ∧
    mn ≤ (set_frequency_config mn mx).emergency_freq ∧
    (set_frequency_config mn mx).powersave_freq = mn + (mx - mn) * 5 / 10 ∧
    (set_frequency_config mn mx).emergency_freq = mn ∧
    mn + (mx - mn) * 7 / 10 - 1 ≤ (set_frequency_config mn mx).balanced_freq ∧
    (set_frequency_config mn mx).balanced_freq ≤ mn + (mx - mn) * 7 / 10 := by
  obtain ⟨T, hT, h1, h2⟩ := int_mul_07_key (mx - mn)
  rw [set_frequency_config_performance, set_frequency_config_balanced,
    set_frequency_config_powersave, set_frequency_config_emergency, hT]
  refine ⟨rfl, ?_, ?_, ?_, ?_, rfl, rfl, ?_, ?_⟩ <;> omega

/-- C9 witness: the amended theorem evaluated at the range 1200-3000 MHz
(freq_range 1800, where the double product is exact and balanced is
2460). -/
theorem frequency_config_ordering_witness :
    (set_frequency_config 1200 3000).performance_freq = 3000 ∧
    (set_frequency_config 1200 3000).balanced_freq ≤
      (set_frequency_config 1200 3000).performance_freq ∧
    (set_frequency_config 1200 3000).powersave_freq ≤
      (set_frequency_config 1200 3000).balanced_freq ∧
    (set_frequency_config 1200 3000).emergency_freq ≤
      (set_frequency_config 1200 3000).powersave_freq ∧
    1200 ≤ (set_frequency_config 1200 3000).emergency_freq ∧
    (set_frequency_config 1200 3000).powersave_freq = 1200 + (3000 - 1200) * 5 / 10 ∧
    (set_frequency_config 1200 3000).emergency_freq = 1200 ∧
    1200 + (3000 - 1200) * 7 / 10 - 1 ≤ (set_frequency_config 1200 3000).balanced_freq ∧
    (set_frequency_config 1200 3000).balanced_freq ≤ 1200 + (3000 - 1200) * 7 / 10 :=
  frequency_config_ordering 1200 3000 (by norm_num) (by norm_num)

/-- C10: when both temperature-reading methods fail, get_cpu_temperature
returns 0 rather than an absent or error value; a thermal tick at that 0
(strictly below the default comfort threshold) then demotes an Emergency
mode to Balanced and decrements the escalation counter (floored at 0),
instead of holding the previous state or signalling a sampling failure. -/
theorem sensor_failure_returns_zero_and_demotes (c : Int) :
    get_cpu_temperature none none = 0 ∧
    get_cpu_temperature none none < defaultThresholds.comfort_temp ∧
    (adaptive_thermal_response defaultThresholds ⟨PowerMode.emergency, c⟩
        (get_cpu_temperature none none)).state =
      ⟨PowerMode.balanced, max 0 (c - 1)⟩ := by
  refine ⟨rfl, by decide, ?_⟩
  show (adaptive_thermal_response defaultThresholds ⟨PowerMode.emergency, c⟩ 0).state =
    ⟨PowerMode.balanced, max 0 (c - 1)⟩
  unfold adaptive_thermal_response
  rw [if_pos (by decide : (0 : Int) < defaultThresholds.comfort_temp),
    if_pos rfl]

end PowerManagement
